import Mathlib

/-!
Verification of the session/authentication core of the exam-platform
dashboard (`prjpyth/auth.py`, `prjpyth/connection.py`).

Shallow embedding conventions:
* Timestamps (`datetime` values) are modelled as `Int` numbers of seconds;
  `timedelta(minutes = m)` is `m * 60` seconds.
* `st.session_state` (a string-keyed dictionary) is modelled as a function
  `String → Option Val`, where `Val` covers the value shapes the code
  stores (booleans, datetimes, strings, integers, user dictionaries).
* The user directory (the `users` table) is a `List UserRecord`;
  `execute_query` with the authentication SELECT is modelled by filtering
  that list, with a `fault : Bool` flag capturing the code path where the
  database raises: `execute_query` catches every exception and returns the
  empty list (`connection.py`, lines 62-66), and `authenticate`'s own
  `except:` returns `None`, which coincides with the empty-result outcome.
* `datetime.fromisoformat`, a standard-library call, is an uninterpreted
  parameter `decode : String → Option Int` of `check_session_timeout`
  (`none` models the `ValueError` raised on an unparsable string).
-/

/-- A row of the `users` table, as selected by the authentication query. -/
structure UserRecord where
  id : Int
  username : String
  role : String
  linked_id : Int
  email : String
  is_active : Bool
deriving DecidableEq, Repr

/-- The `display_name` column computed by the SQL `CASE u.role` expression
in `authenticate`'s query (auth.py, lines 28-32). -/
def display_name (r : UserRecord) : String :=
  if r.role = "etudiant" then "Étudiant Test"
  else if r.role = "professeur" then "Professeur Test"
  else r.username

/-- The user dictionary returned by `authenticate` on success and consumed
by `initialize_session` (auth.py, lines 46-51).  `display_name` is optional
because `initialize_session` reads it with `.get` and a fallback. -/
structure UserData where
  username : String
  role : String
  linked_id : Int
  display_name : Option String
deriving DecidableEq, Repr

/-- The `WHERE u.username = %s AND u.is_active = TRUE` filter of the
authentication query (auth.py, lines 33-36). -/
def lookup_active (dir : List UserRecord) (username : String) : List UserRecord :=
  dir.filter (fun r => r.username == username && r.is_active)

/-- `execute_query` applied to the authentication SELECT
(connection.py, lines 40-69).  `fault = true` models every failure path of
the lookup: connection failure and query exceptions both make
`execute_query` return the empty list, and an exception escaping into
`authenticate` is caught by its bare `except:` which returns `None` — the
same outcome the empty list produces. -/
def execute_query (fault : Bool) (dir : List UserRecord) (username : String) :
    List UserRecord :=
  if fault then [] else lookup_active dir username

/-- `AuthenticationSystem.authenticate` (auth.py, lines 22-55): run the
lookup; on a non-empty result take the first row and, if the password is a
non-empty string (Python truthiness), return the identity dictionary;
otherwise return `None`.  The password's content is used only in the
emptiness test. -/
def authenticate (fault : Bool) (dir : List UserRecord)
    (username password : String) : Option UserData :=
  match execute_query fault dir username with
  | [] => none
  | user :: _ =>
      if password ≠ "" then
        some { username := user.username, role := user.role,
               linked_id := user.linked_id,
               display_name := some (display_name user) }
      else none

/-- Values stored in `st.session_state`. -/
inductive Val where
  | bool : Bool → Val
  | time : Int → Val
  | str : String → Val
  | int : Int → Val
  | user : UserData → Val
deriving DecidableEq, Repr

/-- Python truthiness of a stored value, as tested by
`if st.session_state['authenticated']` (auth.py, line 106): a `datetime`
is always truthy, a string is truthy iff non-empty, an integer iff
non-zero, and the user dictionary built by `authenticate` is a non-empty
dict, hence truthy. -/
def Val.truthy : Val → Bool
  | .bool b => b
  | .time _ => true
  | .str s => s ≠ ""
  | .int n => n ≠ 0
  | .user _ => true

/-- The `st.session_state` dictionary: a partial map from keys to values. -/
def SessionState : Type := String → Option Val

/-- The state of a fresh interaction context: no keys set. -/
def emptyState : SessionState := fun _ => none

/-- `st.session_state[k] = v`: set one key, leave the rest unchanged. -/
def setKey (s : SessionState) (k : String) (v : Val) : SessionState :=
  fun q => if q = k then some v else s q

/-- `AuthenticationSystem.initialize_session` (auth.py, lines 57-72):
`st.session_state.update({...})` merges the four fixed keys into the
existing dictionary (it does not clear other keys), then the two
role-keyed entries `f'{role}_id'` and `f'{role}_name'` are assigned, the
name falling back to the username when `display_name` is absent. -/
def initialize_session (now : Int) (u : UserData) (s : SessionState) :
    SessionState :=
  let s1 := setKey s "authenticated" (.bool true)
  let s2 := setKey s1 "user" (.user u)
  let s3 := setKey s2 "login_time" (.time now)
  let s4 := setKey s3 "last_activity" (.time now)
  let s5 := setKey s4 (u.role ++ "_id") (.int u.linked_id)
  setKey s5 (u.role ++ "_name") (.str (u.display_name.getD u.username))

/-- `AuthenticationSystem.logout` (auth.py, lines 74-84): reads the
username for logging (no state effect) and deletes every key of
`st.session_state`. -/
def logout (_s : SessionState) : SessionState := fun _ => none

/-- `AuthenticationSystem.check_session_timeout` (auth.py, lines 86-99).
`decode` is the uninterpreted `datetime.fromisoformat`; the result is
`none` when the Python code would raise (unparsable string, or a stored
value that is neither a `datetime` nor a string, on which the subtraction
raises `TypeError`). -/
def check_session_timeout (decode : String → Option Int) (now : Int)
    (timeout_minutes : Int) (s : SessionState) : Option Bool :=
  match s "last_activity" with
  | none => some true
  | some (.time t) => some (decide (now - t > timeout_minutes * 60))
  | some (.str w) => (decode w).map (fun t => decide (now - t > timeout_minutes * 60))
  | some _ => none

/-- `AuthenticationSystem.update_activity` (auth.py, lines 101-107): if
`'authenticated'` is present and truthy, set `last_activity` to `now()`;
otherwise leave the state untouched.  No expiry check is performed. -/
def update_activity (now : Int) (s : SessionState) : SessionState :=
  match s "authenticated" with
  | some v => if v.truthy then setKey s "last_activity" (.time now) else s
  | none => s

/-- C1: for every active directory record whose username matches the given
username exactly (the match being unique, as usernames identify a record),
and every non-empty secret, `authenticate` succeeds and returns an identity
whose username, role and linked-entity id are those of the matching record;
the secret enters only through its non-emptiness, never its content. -/
theorem C1_authenticate_active_user_succeeds
    (dir : List UserRecord) (r : UserRecord) (username secret : String)
    (hmem : r ∈ dir) (hact : r.is_active = true) (hname : r.username = username)
    (huniq : ∀ q ∈ dir, q.username = username → q.is_active = true → q = r)
    (hsec : secret ≠ "") :
    authenticate false dir username secret =
      some { username := r.username, role := r.role, linked_id := r.linked_id,
             display_name := some (display_name r) } := by
  have hr : r ∈ lookup_active dir username := by
    unfold lookup_active
    exact List.mem_filter.2 ⟨hmem, by simp [hname, hact]⟩
  unfold authenticate execute_query
  cases hfil : lookup_active dir username with
  | nil => rw [hfil] at hr; simp at hr
  | cons q t =>
      have hq : q ∈ lookup_active dir username := by
        rw [hfil]; exact List.mem_cons_self q t
      unfold lookup_active at hq
      obtain ⟨hqd, hqp⟩ := List.mem_filter.1 hq
      simp only [Bool.and_eq_true, beq_iff_eq] at hqp
      have hqr : q = r := huniq q hqd hqp.1 hqp.2
      simp [hsec, hqr]

/-- Witness for C1 at a concrete directory and secret. -/
theorem C1_witness :
    authenticate false
        [{ id := 1, username := "alice", role := "etudiant", linked_id := 3,
           email := "alice@univ.fr", is_active := true }]
        "alice" "whatever" =
      some { username := "alice", role := "etudiant", linked_id := 3,
             display_name := some "Étudiant Test" } :=
  C1_authenticate_active_user_succeeds
    [{ id := 1, username := "alice", role := "etudiant", linked_id := 3,
       email := "alice@univ.fr", is_active := true }]
    { id := 1, username := "alice", role := "etudiant", linked_id := 3,
      email := "alice@univ.fr", is_active := true }
    "alice" "whatever" (by decide) (by decide) (by decide)
    (by decide) (by decide)

/-- C2: `authenticate` fails (returns `None`) whenever no active record
matches the username — an inactive record behaving exactly like an absent
one — and whenever the secret is empty, even for a valid active user. -/
theorem C2_authenticate_failure_cases :
    (∀ (dir : List UserRecord) (u s : String),
        (∀ r ∈ dir, r.username = u → r.is_active = false) →
        authenticate false dir u s = none) ∧
    (∀ (d1 d2 : List UserRecord) (r : UserRecord) (u s : String),
        r.is_active = false →
        authenticate false (d1 ++ r :: d2) u s =
          authenticate false (d1 ++ d2) u s) ∧
    (∀ (dir : List UserRecord) (u : String),
        authenticate false dir u "" = none) := by
  refine ⟨?_, ?_, ?_⟩
  · intro dir u s h
    have hfil : lookup_active dir u = [] := by
      unfold lookup_active
      refine List.filter_eq_nil_iff.2 (fun r hr => ?_)
      simp only [Bool.and_eq_true, beq_iff_eq, not_and]
      intro hn
      simp [h r hr hn]
    unfold authenticate execute_query
    rw [hfil]
    simp
  · intro d1 d2 r u s hr
    unfold authenticate execute_query lookup_active
    rw [List.filter_append, List.filter_cons, List.filter_append]
    simp [hr]
  · intro dir u
    unfold authenticate execute_query
    cases lookup_active dir u <;> simp

/-- Witness for C2: an inactive `bob` is rejected for any secret, removing
an inactive record from the directory does not change the outcome, and an
empty secret is rejected even for the active `alice`. -/
theorem C2_witness :
    authenticate false
        [{ id := 2, username := "bob", role := "professeur", linked_id := 7,
           email := "bob@univ.fr", is_active := false }] "bob" "pw" = none ∧
    authenticate false
        [{ id := 1, username := "alice", role := "etudiant", linked_id := 3,
           email := "alice@univ.fr", is_active := true },
         { id := 2, username := "bob", role := "professeur", linked_id := 7,
           email := "bob@univ.fr", is_active := false }] "bob" "pw" =
      authenticate false
        [{ id := 1, username := "alice", role := "etudiant", linked_id := 3,
           email := "alice@univ.fr", is_active := true }] "bob" "pw" ∧
    authenticate false
        [{ id := 1, username := "alice", role := "etudiant", linked_id := 3,
           email := "alice@univ.fr", is_active := true }] "alice" "" = none :=
  ⟨C2_authenticate_failure_cases.1 _ "bob" "pw" (by decide),
   C2_authenticate_failure_cases.2.1
     [{ id := 1, username := "alice", role := "etudiant", linked_id := 3,
        email := "alice@univ.fr", is_active := true }] []
     { id := 2, username := "bob", role := "professeur", linked_id := 7,
       email := "bob@univ.fr", is_active := false } "bob" "pw" (by decide),
   C2_authenticate_failure_cases.2.2 _ "alice"⟩

/-- C9: the outcome of `authenticate` is identical for any two non-empty
secrets — it depends only on the username, the directory contents, the
fault flag, and whether the secret is empty; the secret's content (and in
particular its hash) is never consulted. -/
theorem C9_authenticate_ignores_secret_content
    (fault : Bool) (dir : List UserRecord) (u s1 s2 : String)
    (h1 : s1 ≠ "") (h2 : s2 ≠ "") :
    authenticate fault dir u s1 = authenticate fault dir u s2 := by
  unfold authenticate
  cases execute_query fault dir u with
  | nil => rfl
  | cons q t => simp [h1, h2]

/-- Witness for C9: two different non-empty secrets give the same result. -/
theorem C9_witness :
    ("correct-password" ≠ "") ∧ ("garbage" ≠ "") ∧
    authenticate false
        [{ id := 1, username := "alice", role := "etudiant", linked_id := 3,
           email := "alice@univ.fr", is_active := true }]
        "alice" "correct-password" =
      authenticate false
        [{ id := 1, username := "alice", role := "etudiant", linked_id := 3,
           email := "alice@univ.fr", is_active := true }]
        "alice" "garbage" :=
  ⟨by decide, by decide,
   C9_authenticate_ignores_secret_content false _ "alice"
     "correct-password" "garbage" (by decide) (by decide)⟩

/-- A string obtained by appending `suf` cannot equal a string of which
`suf` is not a suffix; used to separate the role-keyed session keys
`f'{role}_id'` / `f'{role}_name'` from the fixed session keys. -/
theorem append_ne_of_not_suffix (r suf tgt : String)
    (h : ¬ suf.data <:+ tgt.data) : r ++ suf ≠ tgt := by
  intro he
  exact h ⟨r.data, by rw [← String.data_append, he]⟩

/-- Unfolding of `initialize_session` as a single key lookup. -/
theorem initialize_session_lookup (now : Int) (u : UserData)
    (s : SessionState) (k : String) :
    (initialize_session now u s) k =
      (if k = u.role ++ "_name" then some (.str (u.display_name.getD u.username))
       else if k = u.role ++ "_id" then some (.int u.linked_id)
       else if k = "last_activity" then some (.time now)
       else if k = "login_time" then some (.time now)
       else if k = "user" then some (.user u)
       else if k = "authenticated" then some (.bool true)
       else s k) := rfl

/-- C3: `check_session_timeout` returns `true` exactly when `last_activity`
is missing or strictly more than `timeout_minutes` have elapsed since it;
with the default 60-minute timeout it is `false` at exactly 59 minutes and
59 seconds elapsed, and `true` on a session with no recorded activity. -/
theorem C3_check_session_timeout_spec :
    (∀ (decode : String → Option Int) (now tm : Int) (s : SessionState),
        s "last_activity" = none →
        check_session_timeout decode now tm s = some true) ∧
    (∀ (decode : String → Option Int) (now tm t : Int) (s : SessionState),
        s "last_activity" = some (.time t) →
        (check_session_timeout decode now tm s = some true ↔
          now - t > tm * 60)) ∧
    (∀ (decode : String → Option Int) (t : Int),
        check_session_timeout decode (t + (59 * 60 + 59)) 60
          (setKey emptyState "last_activity" (.time t)) = some false) := by
  refine ⟨?_, ?_, ?_⟩
  · intro decode now tm s h
    unfold check_session_timeout
    rw [h]
  · intro decode now tm t s h
    unfold check_session_timeout
    rw [h]
    simp
  · intro decode t
    unfold check_session_timeout setKey
    simp only [if_pos rfl]
    have : ¬ (t + (59 * 60 + 59) - t > 60 * 60) := by omega
    simp [this]

/-- Witness for C3 at a concrete session, time and timeout. -/
theorem C3_witness :
    check_session_timeout (fun _ => none) 0 60 emptyState = some true ∧
    (check_session_timeout (fun _ => none) 4000 60
        (setKey emptyState "last_activity" (.time 0)) = some true ↔
      (4000 : Int) - 0 > 60 * 60) ∧
    check_session_timeout (fun _ => none) (59 * 60 + 59) 60
      (setKey emptyState "last_activity" (.time 0)) = some false :=
  ⟨C3_check_session_timeout_spec.1 (fun _ => none) 0 60 emptyState rfl,
   C3_check_session_timeout_spec.2.1 (fun _ => none) 4000 60 0
     (setKey emptyState "last_activity" (.time 0)) rfl,
   C3_check_session_timeout_spec.2.2 (fun _ => none) 0⟩

/-- C10: a session storing `last_activity` as a string that
`datetime.fromisoformat` decodes to timestamp `t` is observationally
equivalent under `check_session_timeout` to the session storing the
timestamp `t` itself. -/
theorem C10_string_timestamp_equivalent
    (decode : String → Option Int) (now tm t : Int) (w : String)
    (s : SessionState) (h : decode w = some t) :
    check_session_timeout decode now tm (setKey s "last_activity" (.str w)) =
      check_session_timeout decode now tm
        (setKey s "last_activity" (.time t)) := by
  unfold check_session_timeout setKey
  simp [h]

/-- Witness for C10 with a concrete decoder and ISO string. -/
theorem C10_witness :
    (fun w => if w = "2024-01-01T00:00:00" then some (1704067200 : Int)
              else none) "2024-01-01T00:00:00" = some 1704067200 ∧
    check_session_timeout
        (fun w => if w = "2024-01-01T00:00:00" then some (1704067200 : Int)
                  else none) 1704070000 60
        (setKey emptyState "last_activity" (.str "2024-01-01T00:00:00")) =
      check_session_timeout
        (fun w => if w = "2024-01-01T00:00:00" then some (1704067200 : Int)
                  else none) 1704070000 60
        (setKey emptyState "last_activity" (.time 1704067200)) :=
  ⟨by simp,
   C10_string_timestamp_equivalent
     (fun w => if w = "2024-01-01T00:00:00" then some (1704067200 : Int)
               else none)
     1704070000 60 1704067200 "2024-01-01T00:00:00" emptyState (by simp)⟩

/-- C5: `logout` discards every session key regardless of content, is
idempotent (and a no-op on the empty session), and a session that has just
been logged out is reported expired by `check_session_timeout`. -/
theorem C5_terminate_discards_all :
    (∀ (s : SessionState) (k : String), logout s k = none) ∧
    (∀ s : SessionState, logout (logout s) = logout s) ∧
    logout emptyState = emptyState ∧
    (∀ (decode : String → Option Int) (now tm : Int) (s : SessionState),
        check_session_timeout decode now tm (logout s) = some true) :=
  ⟨fun _ _ => rfl, fun _ => rfl, rfl, fun _ _ _ _ => rfl⟩

/-- Appending distinct suffixes to the same string yields distinct strings. -/
theorem append_left_cancel_ne (r a b : String) (h : a ≠ b) :
    r ++ a ≠ r ++ b := by
  intro he
  apply h
  have hd : r.data ++ a.data = r.data ++ b.data := by
    rw [← String.data_append, ← String.data_append, he]
  exact String.ext (List.append_cancel_left hd)

/-- C6: `update_activity` leaves the session untouched when the
`authenticated` flag is absent or falsy; when it is truthy it sets
`last_activity` to `now` and changes no other key; and it performs no
expiry check — it bumps `last_activity` even on a session that
`check_session_timeout` already reports expired. -/
theorem C6_touch_frame :
    (∀ (now : Int) (s : SessionState),
        s "authenticated" = none → update_activity now s = s) ∧
    (∀ (now : Int) (s : SessionState) (v : Val),
        s "authenticated" = some v → v.truthy = false →
        update_activity now s = s) ∧
    (∀ (now : Int) (s : SessionState) (v : Val),
        s "authenticated" = some v → v.truthy = true →
        (update_activity now s) "last_activity" = some (.time now) ∧
        ∀ k, k ≠ "last_activity" → (update_activity now s) k = s k) ∧
    (∀ (decode : String → Option Int) (now tm : Int) (s : SessionState)
        (v : Val), s "authenticated" = some v → v.truthy = true →
        check_session_timeout decode now tm s = some true →
        (update_activity now s) "last_activity" = some (.time now)) := by
  refine ⟨?_, ?_, ?_, ?_⟩
  · intro now s h
    unfold update_activity
    rw [h]
  · intro now s v h hv
    unfold update_activity
    rw [h]
    simp [hv]
  · intro now s v h hv
    unfold update_activity
    rw [h]
    simp only [hv, if_true]
    exact ⟨by simp [setKey], fun k hk => by simp [setKey, hk]⟩
  · intro decode now tm s v h hv _
    unfold update_activity
    rw [h]
    simp [hv, setKey]

/-- Witness for C6: touch is a no-op on an anonymous session and on one
with a falsy flag; on an authenticated session — here one with no recorded
activity, which the timeout check already reports expired — it sets
`last_activity` and preserves the other keys. -/
theorem C6_witness :
    update_activity 5 emptyState = emptyState ∧
    update_activity 5 (setKey emptyState "authenticated" (.bool false)) =
      setKey emptyState "authenticated" (.bool false) ∧
    (update_activity 5 (setKey emptyState "authenticated" (.bool true)))
      "last_activity" = some (.time 5) ∧
    (update_activity 5 (setKey emptyState "authenticated" (.bool true)))
      "authenticated" = some (.bool true) ∧
    (update_activity 5 (setKey emptyState "authenticated" (.bool true)))
      "last_activity" = some (.time 5) :=
  ⟨C6_touch_frame.1 5 emptyState rfl,
   C6_touch_frame.2.1 5 (setKey emptyState "authenticated" (.bool false))
     (.bool false) rfl rfl,
   (C6_touch_frame.2.2.1 5 (setKey emptyState "authenticated" (.bool true))
     (.bool true) rfl rfl).1,
   ((C6_touch_frame.2.2.1 5 (setKey emptyState "authenticated" (.bool true))
     (.bool true) rfl rfl).2 "authenticated" (by decide)).trans rfl,
   C6_touch_frame.2.2.2 (fun _ => none) 5 60
     (setKey emptyState "authenticated" (.bool true)) (.bool true)
     rfl rfl rfl⟩

/-- C4 counterexample: `initialize_session` merges into the prior state
(`st.session_state.update`), so a role-keyed field left by a previous
session of a different role — here `professeur_id` — survives a new login
with role `etudiant`, contradicting "no field of a previous session
survives into the new session". -/
theorem C4_counterexample :
    (initialize_session 100
        { username := "alice", role := "etudiant", linked_id := 3,
          display_name := some "Alice" }
        (setKey emptyState "professeur_id" (.int 7))) "professeur_id" =
      some (.int 7) := rfl

/-- C4 amended: `initialize_session` writes `authenticated = true`, the
identity, `login_time = now`, `last_activity = now` and the two role-keyed
convenience fields derived purely from the identity — but it merges into
the prior session state: every key other than the six it writes keeps its
previous value. -/
theorem C4_establish_session_merges (now : Int) (u : UserData)
    (s : SessionState) :
    (initialize_session now u s) "authenticated" = some (.bool true) ∧
    (initialize_session now u s) "user" = some (.user u) ∧
    (initialize_session now u s) "login_time" = some (.time now) ∧
    (initialize_session now u s) "last_activity" = some (.time now) ∧
    (initialize_session now u s) (u.role ++ "_id") = some (.int u.linked_id) ∧
    (initialize_session now u s) (u.role ++ "_name") =
      some (.str (u.display_name.getD u.username)) ∧
    ∀ k, k ≠ "authenticated" → k ≠ "user" → k ≠ "login_time" →
      k ≠ "last_activity" → k ≠ u.role ++ "_id" → k ≠ u.role ++ "_name" →
      (initialize_session now u s) k = s k := by
  have hname : ∀ tgt : String, ¬ ("_name".data <:+ tgt.data) →
      ¬ (tgt = u.role ++ "_name") := fun tgt ht he =>
    append_ne_of_not_suffix u.role "_name" tgt ht he.symm
  have hid : ∀ tgt : String, ¬ ("_id".data <:+ tgt.data) →
      ¬ (tgt = u.role ++ "_id") := fun tgt ht he =>
    append_ne_of_not_suffix u.role "_id" tgt ht he.symm
  refine ⟨?_, ?_, ?_, ?_, ?_, ?_, ?_⟩
  · rw [initialize_session_lookup,
        if_neg (hname "authenticated" (by decide)),
        if_neg (hid "authenticated" (by decide))]
    rfl
  · rw [initialize_session_lookup,
        if_neg (hname "user" (by decide)), if_neg (hid "user" (by decide))]
    rfl
  · rw [initialize_session_lookup,
        if_neg (hname "login_time" (by decide)),
        if_neg (hid "login_time" (by decide))]
    rfl
  · rw [initialize_session_lookup,
        if_neg (hname "last_activity" (by decide)),
        if_neg (hid "last_activity" (by decide))]
    rfl
  · rw [initialize_session_lookup,
        if_neg (append_left_cancel_ne u.role "_id" "_name" (by decide)),
        if_pos rfl]
  · rw [initialize_session_lookup, if_pos rfl]
  · intro k h1 h2 h3 h4 h5 h6
    rw [initialize_session_lookup, if_neg h6, if_neg h5, if_neg h4,
        if_neg h3, if_neg h2, if_neg h1]

/-- Witness for C4 amended, at a concrete identity and prior state. -/
theorem C4_witness :
    (initialize_session 100
        { username := "alice", role := "etudiant", linked_id := 3,
          display_name := some "Alice" }
        (setKey emptyState "stale" (.int 9))) "login_time" =
      some (.time 100) ∧
    (initialize_session 100
        { username := "alice", role := "etudiant", linked_id := 3,
          display_name := some "Alice" }
        (setKey emptyState "stale" (.int 9))) "stale" =
      setKey emptyState "stale" (.int 9) "stale" :=
  ⟨(C4_establish_session_merges 100
      { username := "alice", role := "etudiant", linked_id := 3,
        display_name := some "Alice" }
      (setKey emptyState "stale" (.int 9))).2.2.1,
   (C4_establish_session_merges 100
      { username := "alice", role := "etudiant", linked_id := 3,
        display_name := some "Alice" }
      (setKey emptyState "stale" (.int 9))).2.2.2.2.2.2 "stale"
     (by decide) (by decide) (by decide) (by decide) (by decide) (by decide)⟩

/-- C7 counterexample: when the lookup faults, `authenticate` returns the
very same value (`None`) as when no user matches — there is no distinct
`DirectoryUnavailable` outcome; the fault is indistinguishable from the
not-found result. -/
theorem C7_counterexample :
    authenticate true
        [{ id := 1, username := "alice", role := "etudiant", linked_id := 3,
           email := "alice@univ.fr", is_active := true }] "alice" "pw" =
      authenticate false [] "alice" "pw" ∧
    authenticate true
        [{ id := 1, username := "alice", role := "etudiant", linked_id := 3,
           email := "alice@univ.fr", is_active := true }] "alice" "pw" =
      none := ⟨rfl, rfl⟩

/-- C7 amended: every lookup fault is collapsed by `authenticate` into the
single failure value `None` — the same value produced when no matching
user exists — so no distinct `DirectoryUnavailable` outcome is surfaced. -/
theorem C7_fault_collapsed_into_not_found (dir : List UserRecord)
    (u p : String) :
    authenticate true dir u p = none ∧
    authenticate true dir u p = authenticate false [] u p := by
  constructor <;> rfl

/-- `update_activity` either writes `now` into `last_activity` (truthy
`authenticated` flag) or leaves the whole state unchanged. -/
theorem update_activity_last_activity (now : Int) (s : SessionState) :
    (update_activity now s) "last_activity" = some (.time now) ∨
    update_activity now s = s := by
  unfold update_activity
  cases s "authenticated" with
  | none => exact Or.inr rfl
  | some v =>
      by_cases hv : v.truthy = true
      · simp [hv, setKey]
      · simp [hv]

/-- `update_activity` never touches the `login_time` key. -/
theorem update_activity_login_time (now : Int) (s : SessionState) :
    (update_activity now s) "login_time" = s "login_time" := by
  unfold update_activity
  cases s "authenticated" with
  | none => rfl
  | some v =>
      by_cases hv : v.truthy = true
      · simp [hv, setKey]
      · simp [hv]

/-- Session states reachable from the initial anonymous (empty) state by
the session-lifecycle operations, each invoked at a time no earlier than
the previous one.  `check_session_timeout` (isExpired) is a pure query and
does not change the state, so it contributes no transition; `wait` lets
the clock advance between operations. -/
inductive Reachable : SessionState → Int → Prop where
  | start (t : Int) : Reachable emptyState t
  | wait {s : SessionState} {t : Int} (t' : Int) :
      Reachable s t → t ≤ t' → Reachable s t'
  | login {s : SessionState} {t : Int} (u : UserData) :
      Reachable s t → Reachable (initialize_session t u s) t
  | touch {s : SessionState} {t : Int} :
      Reachable s t → Reachable (update_activity t s) t
  | signoff {s : SessionState} {t : Int} :
      Reachable s t → Reachable (logout s) t

/-- In every reachable state, any stored `login_time` is no later than the
current clock, and `last_activity` is never earlier than `login_time`. -/
theorem reachable_bounds {s : SessionState} {t : Int} (h : Reachable s t) :
    (∀ lt, s "login_time" = some (.time lt) → lt ≤ t) ∧
    (∀ la lt, s "last_activity" = some (.time la) →
        s "login_time" = some (.time lt) → lt ≤ la) := by
  induction h with
  | start t =>
      exact ⟨fun lt h => by simp [emptyState] at h,
             fun la lt h _ => by simp [emptyState] at h⟩
  | wait t' _ hle ih =>
      exact ⟨fun lt h => le_trans (ih.1 lt h) hle, ih.2⟩
  | login u _ ih =>
      constructor
      · intro lt h
        rw [initialize_session_lookup,
            if_neg (fun he => append_ne_of_not_suffix _ "_name" "login_time"
              (by decide) he.symm),
            if_neg (fun he => append_ne_of_not_suffix _ "_id" "login_time"
              (by decide) he.symm)] at h
        rw [if_neg (by decide), if_pos rfl] at h
        injection h with h
        injection h with h
        omega
      · intro la lt hla hlt
        rw [initialize_session_lookup,
            if_neg (fun he => append_ne_of_not_suffix _ "_name" "login_time"
              (by decide) he.symm),
            if_neg (fun he => append_ne_of_not_suffix _ "_id" "login_time"
              (by decide) he.symm),
            if_neg (by decide), if_pos rfl] at hlt
        rw [initialize_session_lookup,
            if_neg (fun he => append_ne_of_not_suffix _ "_name" "last_activity"
              (by decide) he.symm),
            if_neg (fun he => append_ne_of_not_suffix _ "_id" "last_activity"
              (by decide) he.symm),
            if_pos rfl] at hla
        injection hla with hla
        injection hla with hla
        injection hlt with hlt
        injection hlt with hlt
        omega
  | touch hr ih =>
      rename_i s t
      constructor
      · intro lt h
        rw [update_activity_login_time] at h
        exact ih.1 lt h
      · intro la lt hla hlt
        rw [update_activity_login_time] at hlt
        rcases update_activity_last_activity t s with hcase | hcase
        · rw [hcase] at hla
          injection hla with hla
          injection hla with hla
          have := ih.1 lt hlt
          omega
        · rw [hcase] at hla
          exact ih.2 la lt hla hlt
  | signoff hr ih =>
      exact ⟨fun lt h => by simp [logout] at h,
             fun la lt h _ => by simp [logout] at h⟩

/-- C8: in every session state reachable from the initial anonymous state
by any sequence of `initialize_session`, `update_activity`,
`check_session_timeout` and `logout` (invoked at nondecreasing times),
`last_activity` is never earlier than `login_time`. -/
theorem C8_last_activity_ge_login_time {s : SessionState} {t : Int}
    (h : Reachable s t) (la lt : Int)
    (hla : s "last_activity" = some (.time la))
    (hlt : s "login_time" = some (.time lt)) : lt ≤ la :=
  (reachable_bounds h).2 la lt hla hlt

/-- Witness for C8: a fresh login at time 5 followed by a touch at time 9
yields a reachable state whose invariant instance evaluates concretely. -/
theorem C8_witness :
    (update_activity 9 (initialize_session 5
        { username := "alice", role := "etudiant", linked_id := 3,
          display_name := some "Alice" } emptyState)) "last_activity" =
      some (.time 9) ∧
    (update_activity 9 (initialize_session 5
        { username := "alice", role := "etudiant", linked_id := 3,
          display_name := some "Alice" } emptyState)) "login_time" =
      some (.time 5) ∧
    (5 : Int) ≤ 9 :=
  ⟨rfl, rfl,
   C8_last_activity_ge_login_time
     (Reachable.touch (Reachable.wait 9
       (Reachable.login
         { username := "alice", role := "etudiant", linked_id := 3,
           display_name := some "Alice" } (Reachable.start 5))
       (by decide)))
     9 5 rfl rfl⟩
